import Mathlib

/-!
# LiTPS payment core — verification of the specification against the source

Shallow embedding of the payment lifecycle subsystem of the LiTPS
logistics back office:

* `src/backend/controllers/paymentController.js` — `createPayment`,
  `handleStripeWebhook`, `handlePaymentIntentSucceeded`,
  `handlePaymentIntentFailed`, `capturePayPalOrder`, `getClientPayments`,
  `sendPaymentReceipt`;
* the Payment mongoose model (schema enums, required fields, the
  invoice-number generating `pre('save')` hook, virtuals);
* the Invoice mongoose model (schema, the totals-recomputing
  `pre('save')` hook);
* `paymentReconciliation.js` — `sendOverdueReminders`,
  `convertPaymentsToCSV`.

Conventions: JS numbers carrying money are modelled as `ℚ`; dates as
epoch milliseconds (`Int`); mongoose documents as Lean structures; the
document store as explicit lists threaded through each handler;
`res.status(..).json(..)` responses as a `Resp` structure; external
collaborators (Stripe/PayPal SDK, the emailer, the SMS service) as
boolean/function parameters describing the outcome of the call, since
only the outcome reaches the code under verification.  Fallible saves
return `Except String`, mirroring thrown mongoose validation errors.
-/

namespace LiTPS

/-- A line item as it appears in both mongoose schemas:
`{description, quantity, unitPrice, total}`. -/
structure Item where
  description : String
  quantity : ℚ
  unitPrice : ℚ
  total : ℚ
deriving DecidableEq

/-- The PayPal capture endpoint's response body, as consumed by
`capturePayPalOrder`: a `status` field, plus an optional `error` /
`error_description` pair. -/
structure CaptureData where
  status : String
  isError : Bool
  errorDescription : String
deriving DecidableEq

/-- Gateway response payload stored opaquely in `payment.paymentDetails`
(`mongoose.Schema.Types.Mixed`): either a Stripe payment-intent object or a
PayPal capture response. -/
inductive GatewayPayload where
  | intent (id : String)
  | capture (c : CaptureData)
deriving DecidableEq

/-- Payment document (`models/Payment.js` schema fields used by the core).
`invoiceNumber = ""` models the field being absent (JS falsy), which is how
the `pre('save')` hook tests for it. -/
structure Payment where
  id : Nat
  invoiceNumber : String
  client : String
  shipment : Option String
  quote : Option String
  amount : ℚ
  currency : String
  description : String
  items : List Item
  status : String
  paymentMethod : String
  paymentGatewayId : Option String
  paymentDetails : Option GatewayPayload
  dueDate : Int
  paidAt : Option Int
  receiptSent : Bool
  notes : Option String
  createdAt : Int
deriving DecidableEq

/-- Invoice document (`models/Invoice.js` schema fields used by the core).
`invoiceNumber = ""` models the required field being absent. -/
structure Invoice where
  id : Nat
  invoiceNumber : String
  payment : Nat
  client : String
  issueDate : Int
  dueDate : Int
  items : List Item
  subtotal : ℚ
  taxRate : ℚ
  taxAmount : ℚ
  totalAmount : ℚ
  currency : String
  notes : Option String
  status : String
  sentAt : Option Int
  paidAt : Option Int
  pdfUrl : Option String
deriving DecidableEq

/-- The external document store: user ids (the `User` collection as far as
the payment core reads it), payments and invoices. -/
structure Store where
  users : List String
  payments : List Payment
  invoices : List Invoice
deriving DecidableEq

/-- JSON response envelope `{success, message?}` together with the HTTP
status code set via `res.status(..)`. -/
structure Resp where
  status : Nat
  success : Bool
  message : Option String
deriving DecidableEq

/-! ## Schema validation (mongoose enum / required constraints) -/

/-- `paymentSchema.paymentMethod.enum` — note `'pending'` is NOT a member. -/
def paymentMethodEnum : List String :=
  ["stripe", "paypal", "bank_transfer", "cash", "mobile_money"]

/-- `paymentSchema.status.enum`. -/
def paymentStatusEnum : List String :=
  ["pending", "processing", "completed", "failed", "refunded", "cancelled"]

/-- `invoiceSchema.status.enum`. -/
def invoiceStatusEnum : List String :=
  ["draft", "sent", "viewed", "paid", "overdue", "cancelled"]

/-- The Payment schema's validators apart from the status enum:
required `invoiceNumber`, `client`, `description`; `paymentMethod`
must lie in its enum.  (`amount` and `dueDate` are required but always
present in the embedding's structure.) -/
def paymentFieldsValid (p : Payment) : Bool :=
  p.invoiceNumber != "" && p.client != "" && p.description != "" &&
    paymentMethodEnum.contains p.paymentMethod

/-- Full Payment schema validation run by mongoose on save. -/
def paymentValidate (p : Payment) : Bool :=
  paymentStatusEnum.contains p.status && paymentFieldsValid p

/-- Invoice schema validation: required `invoiceNumber`, `client`, item
field constraints (`quantity ≥ 1`, `unitPrice ≥ 0`, `total ≥ 0`, required
description), non-negative totals, `taxRate` within 0..100, status enum. -/
def invoiceValidate (i : Invoice) : Bool :=
  i.invoiceNumber != "" && i.client != "" &&
    invoiceStatusEnum.contains i.status &&
    i.items.all (fun it =>
      it.description != "" && decide (1 ≤ it.quantity) &&
        decide (0 ≤ it.unitPrice) && decide (0 ≤ it.total)) &&
    decide (0 ≤ i.subtotal) && decide (0 ≤ i.taxAmount) &&
    decide (0 ≤ i.taxRate) && decide (i.taxRate ≤ 100) &&
    decide (0 ≤ i.totalAmount)

/-! ## Invoice number generation (`paymentSchema.pre('save')`)

`this.invoiceNumber = INV-${year}-${(count + 1).toString().padStart(5, '0')}`
where `count = await mongoose.model('Payment').countDocuments()`.
`Number.prototype.toString` is modelled by an explicit decimal-digit
rendering (fuel-structured so it evaluates by `decide`). -/

/-- The decimal digit characters, as JS renders them. -/
def digitChar : Nat → Char
  | 0 => '0' | 1 => '1' | 2 => '2' | 3 => '3' | 4 => '4'
  | 5 => '5' | 6 => '6' | 7 => '7' | 8 => '8' | 9 => '9'
  | _ => '*'

/-- Least-significant-first decimal digits, with explicit fuel so the
definition is structurally recursive. -/
def natDigitsRevAux : Nat → Nat → List Nat
  | 0, _ => []
  | fuel + 1, n => if n < 10 then [n] else n % 10 :: natDigitsRevAux fuel (n / 10)

/-- Least-significant-first decimal digits of `n`. -/
def natDigitsRev (n : Nat) : List Nat := natDigitsRevAux (n + 1) n

/-- Decimal rendering of a natural number (JS `Number.prototype.toString`
for a non-negative integer). -/
def natDecimalRepr (n : Nat) : String :=
  String.mk ((natDigitsRev n).reverse.map digitChar)

/-- JS `String.prototype.padStart(5, '0')`. -/
def padStart5 (s : String) : String :=
  String.mk (List.replicate (5 - s.data.length) '0' ++ s.data)

/-- The generated number: `INV-<year>-<(count+1) padded to 5 digits>`. -/
def mkInvoiceNumber (year seq : Nat) : String :=
  "INV-" ++ natDecimalRepr year ++ "-" ++ padStart5 (natDecimalRepr seq)

/-- `paymentSchema.pre('save')`: assign the generated number when the field
is unset, counting the documents existing before this save. -/
def paymentPreSave (count year : Nat) (p : Payment) : Payment :=
  if p.invoiceNumber = "" then
    { p with invoiceNumber := mkInvoiceNumber year (count + 1) }
  else p

/-- `Payment.create`: mongoose assigns a fresh document id, then runs
document validation — registered as the first `pre('save')` hook, so it
fires BEFORE any user `pre('save')` hook — and only afterwards the
invoice-number-generating user hook, whose mutations are written without
revalidation.  A validation failure is a thrown error, and it hits a
fresh document before the hook can fill in the required
`invoiceNumber`. -/
def paymentCreate (year : Nat) (p : Payment) (s : Store) :
    Except String (Payment × Store) :=
  let p0 := { p with id := s.payments.length }
  if paymentValidate p0 then
    let p1 := paymentPreSave s.payments.length year p0
    .ok (p1, { s with payments := s.payments ++ [p1] })
  else
    .error "Payment validation failed"

/-- Overwrite the stored payment document carrying `x`'s id with `x`. -/
def overwritePayment (s : Store) (x : Payment) : Store :=
  { s with payments := s.payments.map (fun q => if q.id = x.id then x else q) }

/-- `payment.save()` on an already-persisted document: validation first
(mongoose's built-in first `pre('save')` hook), then the user hook (a
no-op on any document that passed validation, since its invoice number
is then non-empty), then overwrite the stored document with the same
id. -/
def paymentResave (year : Nat) (p : Payment) (s : Store) : Except String Store :=
  if paymentValidate p then
    .ok (overwritePayment s (paymentPreSave s.payments.length year p))
  else
    .error "Payment validation failed"

/-- The assignment block `payment.status = 'completed'; payment.paidAt =
new Date(); payment.paymentDetails = <raw gateway payload>` executed
before the save in both the webhook and the capture completed paths. -/
def completedPayment (payload : GatewayPayload) (now : Int) (p : Payment) : Payment :=
  { p with status := "completed", paidAt := some now, paymentDetails := some payload }

/-- The assignment `payment.status = 'failed'` before the save. -/
def failedPayment (p : Payment) : Payment :=
  { p with status := "failed" }

/-- The assignment `payment.receiptSent = true` before the save at the end
of `sendPaymentReceipt`. -/
def receiptSentPayment (p : Payment) : Payment :=
  { p with receiptSent := true }

/-! ## Invoice totals (`invoiceSchema.pre('save')`) -/

/-- `invoiceSchema.pre('save')`: recompute each item's total, the subtotal,
the tax amount (`subtotal * taxRate / 100`) and the total amount before
every persist. -/
def invoicePreSave (i : Invoice) : Invoice :=
  let items := i.items.map (fun it => { it with total := it.quantity * it.unitPrice })
  let subtotal := (items.map (·.total)).foldl (· + ·) 0
  let taxAmount := subtotal * (i.taxRate / 100)
  let totalAmount := subtotal + taxAmount
  { i with items := items, subtotal := subtotal,
           taxAmount := taxAmount, totalAmount := totalAmount }

/-- `Invoice.create`: fresh id, totals hook, schema validation, insert. -/
def invoiceCreate (i : Invoice) (s : Store) : Except String (Invoice × Store) :=
  let i1 := invoicePreSave { i with id := s.invoices.length }
  if invoiceValidate i1 then
    .ok (i1, { s with invoices := s.invoices ++ [i1] })
  else
    .error "Invoice validation failed"

/-- `invoice.save()` on an already-persisted document. -/
def invoiceResave (i : Invoice) (s : Store) : Except String Store :=
  let i1 := invoicePreSave i
  if invoiceValidate i1 then
    .ok { s with invoices := s.invoices.map (fun q => if q.id = i1.id then i1 else q) }
  else
    .error "Invoice validation failed"

/-! ## `createPayment` (`POST /api/payments/create`)

External collaborators appear as parameters: `year`/`now` for the clock,
`emailOk` for the outcome of `sendInvoiceEmail` (the invoice PDF rendering
is treated as succeeding, which is the case giving the spec's claims their
content).  The authenticated caller id `userId` is `req.user.id`. -/

/-- Body of the `POST /payments/create` request. `items = none` models a
missing or non-array field. -/
structure CreatePaymentReq where
  shipmentId : Option String
  quoteId : Option String
  items : Option (List Item)
  dueDate : Option Int
  notes : Option String

/-- `createPayment` from `paymentController.js`: validate items, look up
the client, compute subtotal / 15% tax / total, `Payment.create` (status
`pending`, method `pending`), `Invoice.create` (status `draft`), attach
the PDF url, then send the invoice email in its own try/catch — on email
failure the 201 success response is still sent. -/
def createPayment (year : Nat) (now : Int) (emailOk : Bool) (userId : String)
    (req : CreatePaymentReq) (s : Store) : Resp × Store :=
  match req.items with
  | none => (⟨400, false, some "Payment items are required"⟩, s)
  | some items =>
    if items.length = 0 then (⟨400, false, some "Payment items are required"⟩, s)
    else if ¬ s.users.contains userId then (⟨404, false, some "Client not found"⟩, s)
    else
      let subtotal := items.foldl (fun sum it => sum + it.quantity * it.unitPrice) 0
      let taxRate : ℚ := 15 / 100
      let taxAmount := subtotal * taxRate
      let totalAmount := subtotal + taxAmount
      match paymentCreate year
          { id := 0, invoiceNumber := "", client := userId,
            shipment := req.shipmentId, quote := req.quoteId,
            amount := totalAmount, currency := "USD",
            description := (if req.shipmentId.isSome then
              "Payment for shipment services" else "Payment for quote services"),
            items := items, status := "pending", paymentMethod := "pending",
            paymentGatewayId := none, paymentDetails := none,
            dueDate := req.dueDate.getD (now + 30 * 24 * 60 * 60 * 1000),
            paidAt := none, receiptSent := false, notes := req.notes,
            createdAt := now } s with
      | .error e => (⟨500, false, some e⟩, s)
      | .ok (payment, s1) =>
        match invoiceCreate
            { id := 0, invoiceNumber := "", payment := payment.id,
              client := userId, issueDate := now, dueDate := payment.dueDate,
              items := items, subtotal := subtotal, taxRate := taxRate * 100,
              taxAmount := taxAmount, totalAmount := totalAmount,
              currency := "USD", notes := req.notes, status := "draft",
              sentAt := none, paidAt := none, pdfUrl := none } s1 with
        | .error e => (⟨500, false, some e⟩, s1)
        | .ok (invoice, s2) =>
          let pdfUrl := "/invoices/invoice-" ++ invoice.invoiceNumber ++ ".pdf"
          match invoiceResave { invoice with pdfUrl := some pdfUrl } s2 with
          | .error e => (⟨500, false, some e⟩, s2)
          | .ok s3 =>
            if emailOk then
              let sentInvoice :=
                { invoice with pdfUrl := some pdfUrl, status := "sent", sentAt := some now }
              match invoiceResave sentInvoice s3 with
              | .error e => (⟨500, false, some e⟩, s3)
              | .ok s4 => (⟨201, true, none⟩, s4)
            else
              (⟨201, true, none⟩, s3)

/-! ## Stripe webhook (`POST /api/payments/stripe/webhook`) -/

/-- A verified Stripe event: its `type` and `data.object.id`. -/
structure StripeEvent where
  type : String
  objectId : String
deriving DecidableEq

/-- How a webhook request is answered: the 400 `send` text on signature
failure, `{received: true}`, or the 500 processing-failure body. -/
inductive WebhookBody where
  | errText (msg : String)
  | received
  | processingFailed
deriving DecidableEq

/-- `Payment.findOne({ paymentGatewayId: gid })`. -/
def findPaymentByGatewayId (s : Store) (gid : String) : Option Payment :=
  s.payments.find? (fun p => p.paymentGatewayId = some gid)

/-- `Invoice.findOneAndUpdate({payment: pid}, ...)` updates the first
matching document only, bypassing save hooks and validators. -/
def findOneAndUpdateInvoiceAux (pid : Nat) (f : Invoice → Invoice) :
    List Invoice → List Invoice
  | [] => []
  | i :: is =>
    if i.payment = pid then f i :: is else i :: findOneAndUpdateInvoiceAux pid f is

/-- `Invoice.findOneAndUpdate({payment}, {status: 'paid', paidAt: now})`. -/
def markInvoicePaid (pid : Nat) (now : Int) (s : Store) : Store :=
  let upd := fun (i : Invoice) => { i with status := "paid", paidAt := some now }
  { s with invoices := findOneAndUpdateInvoiceAux pid upd s.invoices }

/-- `sendPaymentReceipt`: looks the client up (a missing client makes
`client.email` throw), sends the receipt email (may throw), then sets
`receiptSent` and saves the payment.  No local try/catch anywhere. -/
def sendPaymentReceipt (year : Nat) (emailOk : Bool) (p : Payment) (s : Store) :
    Except String Store :=
  if ¬ s.users.contains p.client then .error "client lookup failed"
  else if ¬ emailOk then .error "email send failed"
  else paymentResave year (receiptSentPayment p) s

/-- `handlePaymentIntentSucceeded`: find the payment by gateway id (no-op
when absent), set `completed`/`paidAt`/`paymentDetails` and save, mark the
invoice paid, send the receipt email (NOT caught here), then the SMS inside
its own try/catch.  Returns the store after whatever mutations happened,
plus the error that escaped, if any. -/
def handlePaymentIntentSucceeded (year : Nat) (emailOk smsEnabled smsOk : Bool)
    (now : Int) (intentId : String) (s : Store) : Store × Option String :=
  match findPaymentByGatewayId s intentId with
  | none => (s, none)
  | some p =>
    let p1 := completedPayment (.intent intentId) now p
    match paymentResave year p1 s with
    | .error e => (s, some e)
    | .ok s1 =>
      let s2 := markInvoicePaid p.id now s1
      match sendPaymentReceipt year emailOk p1 s2 with
      | .error e => (s2, some e)
      | .ok s3 =>
        if smsEnabled ∧ ¬ smsOk then (s3, none) else (s3, none)

/-- `handlePaymentIntentFailed`: find by gateway id, set `failed`, save. -/
def handlePaymentIntentFailed (year : Nat) (intentId : String) (s : Store) :
    Store × Option String :=
  match findPaymentByGatewayId s intentId with
  | none => (s, none)
  | some p =>
    match paymentResave year (failedPayment p) s with
    | .error e => (s, some e)
    | .ok s1 => (s1, none)

/-- `handleStripeWebhook`: `stripe.webhooks.constructEvent` (signature
verification over the raw body, producing the parsed event only on
success) is modelled by the `verified` argument.  On verification failure:
400, nothing touched.  Then the event-type switch with a catch-all 500. -/
def handleStripeWebhook (year : Nat) (verified : Except String StripeEvent)
    (emailOk smsEnabled smsOk : Bool) (now : Int) (s : Store) :
    (Nat × WebhookBody) × Store :=
  match verified with
  | .error msg => ((400, .errText ("Webhook Error: " ++ msg)), s)
  | .ok ev =>
    if ev.type = "payment_intent.succeeded" then
      match handlePaymentIntentSucceeded year emailOk smsEnabled smsOk now ev.objectId s with
      | (s', none) => ((200, .received), s')
      | (s', some _) => ((500, .processingFailed), s')
    else if ev.type = "payment_intent.payment_failed" then
      match handlePaymentIntentFailed year ev.objectId s with
      | (s', none) => ((200, .received), s')
      | (s', some _) => ((500, .processingFailed), s')
    else
      ((200, .received), s)

/-! ## `capturePayPalOrder` (`POST /api/payments/paypal/capture-order`) -/

/-- `capturePayPalOrder`: on a gateway error payload, throw (500).  Find
the payment by the order id (404 when absent).  On `COMPLETED`: set
`completed`/`paidAt`, store the raw capture payload, save, mark the
invoice paid, send the receipt (NOT caught — a failure becomes the 500
catch-all), answer 200.  Otherwise: set `failed`, save, answer 400. -/
def capturePayPalOrder (year : Nat) (captureData : CaptureData) (emailOk : Bool)
    (now : Int) (orderId : String) (s : Store) : Resp × Store :=
  if captureData.isError then (⟨500, false, some captureData.errorDescription⟩, s)
  else
    match findPaymentByGatewayId s orderId with
    | none => (⟨404, false, some "Payment not found"⟩, s)
    | some p =>
      if captureData.status = "COMPLETED" then
        let p1 := completedPayment (.capture captureData) now p
        match paymentResave year p1 s with
        | .error e => (⟨500, false, some e⟩, s)
        | .ok s1 =>
          let s2 := markInvoicePaid p.id now s1
          match sendPaymentReceipt year emailOk p1 s2 with
          | .error e => (⟨500, false, some e⟩, s2)
          | .ok s3 => (⟨200, true, none⟩, s3)
      else
        match paymentResave year (failedPayment p) s with
        | .error e => (⟨500, false, some e⟩, s)
        | .ok s1 => (⟨400, false, some "Payment capture failed"⟩, s1)

/-! ## `getClientPayments` (`GET /api/payments`) -/

/-- Pagination block of the list response. -/
structure Pagination where
  page : Nat
  limit : Nat
  total : Nat
  pages : Nat
deriving DecidableEq

/-- `getClientPayments`: page/limit from the query (`parseInt(..) || def`),
filter `{client: req.user.id}` plus the optional status, sort by
`createdAt` descending, skip/limit, and count for the pagination block. -/
def getClientPayments (uid : String) (pageQ limitQ : Option Nat)
    (statusQ : Option String) (s : Store) : Resp × List Payment × Pagination :=
  let page := match pageQ with | some n => if n = 0 then 1 else n | none => 1
  let limit := match limitQ with | some n => if n = 0 then 10 else n | none => 10
  let skip := (page - 1) * limit
  let filtered := s.payments.filter (fun p =>
    p.client == uid &&
      (match statusQ with | some st => p.status == st | none => true))
  let sorted := filtered.mergeSort (fun a b => decide (b.createdAt ≤ a.createdAt))
  let pagePayments := (sorted.drop skip).take limit
  let total := filtered.length
  (⟨200, true, none⟩, pagePayments, ⟨page, limit, total, (total + limit - 1) / limit⟩)

/-! ## `sendOverdueReminders` (`POST /api/payment-reports/send-reminders`) -/

/-- One entry of the returned error list: `{payment: invoiceNumber, error}`. -/
structure ReminderError where
  payment : String
  error : String
deriving DecidableEq

/-- The response data `{remindersSent, totalOverdue, errors}`. -/
structure ReminderSummary where
  remindersSent : Nat
  totalOverdue : Nat
  errors : List ReminderError
deriving DecidableEq

/-- The `for..of` loop over overdue payments: each reminder email attempt
is its own try/catch; a success increments the counter, a failure appends
`{payment, error}` and the loop continues.  The emailer outcome is the
function argument (`none` = sent, `some msg` = threw `msg`). -/
def remindLoop (emailer : Payment → Option String) :
    List Payment → Nat × List ReminderError
  | [] => (0, [])
  | p :: ps =>
    let rest := remindLoop emailer ps
    match emailer p with
    | none => (rest.1 + 1, rest.2)
    | some msg => (rest.1, ⟨p.invoiceNumber, msg⟩ :: rest.2)

/-- `Payment.find({status: 'pending', dueDate: {$lt: new Date()}})`. -/
def overdueFilter (now : Int) (s : Store) : List Payment :=
  s.payments.filter (fun p => p.status == "pending" && decide (p.dueDate < now))

/-- `sendOverdueReminders`: query the overdue payments, run the reminder
loop, and answer 200 with `{remindersSent, totalOverdue, errors}`. -/
def sendOverdueReminders (emailer : Payment → Option String) (now : Int)
    (s : Store) : Resp × ReminderSummary :=
  let overduePayments := overdueFilter now s
  let r := remindLoop emailer overduePayments
  (⟨200, true, none⟩, ⟨r.1, overduePayments.length, r.2⟩)

/-! ## CSV export (`convertPaymentsToCSV` in `paymentReconciliation.js`) -/

/-- JS `Array.prototype.join(sep)`. -/
def joinSep (sep : String) : List String → String
  | [] => ""
  | x :: xs => xs.foldl (fun acc t => acc ++ sep ++ t) x

/-- Two-digit zero padding, as inside an ISO date. -/
def pad2 (n : Nat) : String :=
  if n < 10 then "0" ++ natDecimalRepr n else natDecimalRepr n

/-- Four-digit zero padding for the ISO year. -/
def pad4 (n : Nat) : String :=
  String.mk (List.replicate (4 - (natDecimalRepr n).data.length) '0' ++
    (natDecimalRepr n).data)

/-- Proleptic Gregorian date of a day count since 1970-01-01
(the standard civil-from-days computation used by date libraries). -/
def civilFromDays (z0 : Int) : Int × Nat × Nat :=
  let z := z0 + 719468
  let era := z.fdiv 146097
  let doe := (z - era * 146097).toNat
  let yoe := (doe - doe / 1460 + doe / 36524 - doe / 146096) / 365
  let y := (yoe : Int) + era * 400
  let doy := doe - (365 * yoe + yoe / 4 - yoe / 100)
  let mp := (5 * doy + 2) / 153
  let d := doy - (153 * mp + 2) / 5 + 1
  let m := if mp < 10 then mp + 3 else mp - 9
  (if m ≤ 2 then y + 1 else y, m, d)

/-- `new Date(ms).toISOString().split('T')[0]`: the `YYYY-MM-DD` part of the
ISO rendering of an epoch-milliseconds timestamp. -/
def isoDateOf (ms : Int) : String :=
  let days := ms.fdiv 86400000
  let c := civilFromDays days
  (if c.1 < 0 then "-" ++ pad4 (-c.1).toNat else pad4 c.1.toNat) ++
    "-" ++ pad2 c.2.1 ++ "-" ++ pad2 c.2.2

/-- The `Paid Date` cell: `payment.paidAt ? ..toISOString().split('T')[0] : ''`. -/
def paidDateCell (paidAt : Option Int) : String :=
  match paidAt with
  | some t => isoDateOf t
  | none => ""

/-- A payment as the export query returns it: the document together with
the populated `client.companyName`. -/
structure PopPayment where
  payment : Payment
  clientCompanyName : String

/-- The CSV header cells. -/
def csvHeaders : List String :=
  ["Invoice Number", "Client", "Amount", "Currency", "Payment Method",
   "Status", "Paid Date", "Description"]

/-- One data row of `convertPaymentsToCSV`, before joining with commas:
`companyName` and `description` are wrapped in double quotes, the other
cells are emitted raw (`payment.amount` through number-to-string). -/
def csvRowCells (pp : PopPayment) : List String :=
  [pp.payment.invoiceNumber,
   "\"" ++ pp.clientCompanyName ++ "\"",
   toString pp.payment.amount,
   pp.payment.currency,
   pp.payment.paymentMethod,
   pp.payment.status,
   paidDateCell pp.payment.paidAt,
   "\"" ++ pp.payment.description ++ "\""]

/-- `convertPaymentsToCSV`: the header row, then one joined row per
payment, all joined with newlines. -/
def convertPaymentsToCSV (ps : List PopPayment) : String :=
  joinSep "\n" (joinSep "," csvHeaders :: ps.map (fun pp => joinSep "," (csvRowCells pp)))

/-! ### A CSV reader (the "parse back field-by-field respecting quoting"
of the round-trip property).  `splitTop` splits on a delimiter occurring
outside double quotes; `unquoteCell` strips one surrounding quote pair. -/

/-- Prepend a character to the first piece of a split result. -/
def consFirst (c : Char) : List (List Char) → List (List Char)
  | [] => [[c]]
  | f :: fs => (c :: f) :: fs

/-- Split a character stream at every occurrence of `d` that lies outside
double quotes (`q` is the inside-quotes flag); quote characters stay in
the pieces. -/
def splitTop (d : Char) : List Char → Bool → List (List Char)
  | [], _ => [[]]
  | c :: cs, q =>
    if c = '"' then consFirst c (splitTop d cs (!q))
    else if c = d ∧ q = false then [] :: splitTop d cs q
    else consFirst c (splitTop d cs q)

/-- Strip one surrounding pair of double quotes, when present. -/
def unquoteCell : List Char → List Char
  | '"' :: rest =>
    if rest.getLast? = some '"' then rest.dropLast else '"' :: rest
  | other => other

/-- Parse one CSV line into its cells. -/
def parseCSVLine (line : List Char) : List String :=
  (splitTop ',' line false).map (fun c => String.mk (unquoteCell c))

/-- Parse a CSV document into rows of cells. -/
def parseCSV (s : String) : List (List String) :=
  (splitTop '\n' s.data false).map parseCSVLine

/-- A raw (unquoted) cell is clean when it contains no comma, double quote
or newline; such a cell survives the round-trip verbatim. -/
def cellClean (s : String) : Prop :=
  ',' ∉ s.data ∧ '"' ∉ s.data ∧ '\n' ∉ s.data

/-- A quoted cell's content is clean when it contains no double quote or
newline (commas are fine — that is what the quoting is for). -/
def quotedClean (s : String) : Prop :=
  '"' ∉ s.data ∧ '\n' ∉ s.data

/-- All cells of an export row are clean in the appropriate sense. -/
def rowClean (pp : PopPayment) : Prop :=
  cellClean pp.payment.invoiceNumber ∧
  quotedClean pp.clientCompanyName ∧
  cellClean (toString pp.payment.amount) ∧
  cellClean pp.payment.currency ∧
  cellClean pp.payment.paymentMethod ∧
  cellClean pp.payment.status ∧
  cellClean (paidDateCell pp.payment.paidAt) ∧
  quotedClean pp.payment.description

instance (s : String) : Decidable (cellClean s) := by
  unfold cellClean
  infer_instance

instance (s : String) : Decidable (quotedClean s) := by
  unfold quotedClean
  infer_instance

/-- The parsed form a clean export row must come back as. -/
def roundTripRow (pp : PopPayment) : List String :=
  [pp.payment.invoiceNumber, pp.clientCompanyName, toString pp.payment.amount,
   pp.payment.currency, pp.payment.paymentMethod, pp.payment.status,
   paidDateCell pp.payment.paidAt, pp.payment.description]

instance (pp : PopPayment) : Decidable (rowClean pp) := by
  unfold rowClean
  infer_instance

/-! ## Helper functions used only inside proofs -/

/-- In-quotes flag after scanning a character stream. -/
def scanQ (q : Bool) : List Char → Bool
  | [] => q
  | c :: cs => scanQ (if c = '"' then !q else q) cs

/-- Does the stream contain `d` outside double quotes? -/
def hasTopDelim (d : Char) (q : Bool) : List Char → Bool
  | [] => false
  | c :: cs =>
    if c = '"' then hasTopDelim d (!q) cs
    else if c = d ∧ q = false then true
    else hasTopDelim d q cs

/-- Character-level form of `joinSep` used to reason about the CSV body. -/
def joinChars (sep : List Char) : List (List Char) → List Char
  | [] => []
  | [x] => x
  | x :: y :: rest => x ++ sep ++ joinChars sep (y :: rest)

/-- `sep`-prefixed concatenation of the tail pieces of a join. -/
def sepFlat (sep : List Char) : List (List Char) → List Char
  | [] => []
  | x :: l => sep ++ x ++ sepFlat sep l

/-- Sequential `Payment.create` calls (the document of each request has no
invoice number yet); a failed save leaves the store untouched, as the
controller's catch ends the request. -/
def paymentCreateSeq (year : Nat) (docs : List Payment) (s : Store) : Store :=
  docs.foldl (fun st d =>
    match paymentCreate year d st with
    | .ok r => r.2
    | .error _ => st) s

/-- Concrete document used to instantiate theorems on sample stores. -/
def samplePayment : Payment :=
  { id := 0, invoiceNumber := "INV-2024-00001", client := "client1",
    shipment := none, quote := none, amount := 100, currency := "USD",
    description := "Payment for shipment services", items := [],
    status := "pending", paymentMethod := "stripe", paymentGatewayId := none,
    paymentDetails := none, dueDate := 0, paidAt := none, receiptSent := false,
    notes := none, createdAt := 0 }

/-- Concrete invoice used to instantiate theorems on sample stores. -/
def sampleInvoice : Invoice :=
  { id := 0, invoiceNumber := "INV-2024-00001", payment := 0,
    client := "client1", issueDate := 0, dueDate := 0, items := [],
    subtotal := 100, taxRate := 15, taxAmount := 15, totalAmount := 115,
    currency := "USD", notes := none, status := "draft", sentAt := none,
    paidAt := none, pdfUrl := none }

/-- The persisted form of `sampleInvoice` with a 0% tax rate, as produced
by the totals hook on an empty item list. -/
def sampleCreatedInvoice : Invoice :=
  { sampleInvoice with taxRate := 0, subtotal := 0, taxAmount := 0, totalAmount := 0 }

/-! # Theorems -/

/-! ## C1 — CreatePayment persistence

The claim says a well-formed request persists a Payment with
`paymentMethod: 'pending'` and then an Invoice.  The controller indeed
passes `paymentMethod: 'pending'` to `Payment.create`, but the Payment
schema's enum for that very field is
`['stripe','paypal','bank_transfer','cash','mobile_money']` — `'pending'`
is not a legal value, so mongoose validation rejects the document and the
handler's catch answers 500 with nothing persisted.  (Independently, the
controller also omits the Invoice's required `invoiceNumber`, for which no
generator exists, so `Invoice.create` could never succeed either.) -/

/-- **C1** (code bug): a fully well-formed CreatePayment request — an
existing client and a non-empty, well-formed items list — is answered
with a 500 validation failure and leaves the store untouched: validation
of the fresh document fails both on the required `invoiceNumber` (still
unset, since validation precedes the generating hook) and on the
controller's `paymentMethod: 'pending'`, which is outside the Payment
schema's `paymentMethod` enum; no Payment or Invoice is persisted,
contradicting the claimed success path. -/
theorem createPayment_rejected_by_schema :
    createPayment 2024 0 true "client1"
      ⟨some "ship1", none, some [⟨"Handling", 2, 100, 200⟩], none, none⟩
      ⟨["client1"], [], []⟩ =
    (⟨500, false, some "Payment validation failed"⟩, ⟨["client1"], [], []⟩) := by
  rfl

/-! ## C3 — arithmetic invariant of invoice totals -/

/-- **C3**: every persisted Invoice satisfies the arithmetic invariant:
the `pre('save')` hook recomputes, before each persist, each item's
`total = quantity × unitPrice`, `subtotal` as the sum of the item totals
(equivalently of the `quantity × unitPrice` products), `taxAmount =
subtotal × taxRate/100`, and `totalAmount = subtotal + taxAmount`, leaving
`taxRate` itself untouched; any invoice admitted by `Invoice.create`
satisfies the invariant; and on CreatePayment's fixed 15% rate the spec's
example list [{2,100},{1,50}] yields subtotal 250, tax 37.50 and total
287.50. -/
theorem invoice_totals_invariant :
    (∀ i : Invoice,
      (∀ it ∈ (invoicePreSave i).items, it.total = it.quantity * it.unitPrice) ∧
      (invoicePreSave i).subtotal = ((invoicePreSave i).items.map Item.total).sum ∧
      (invoicePreSave i).subtotal =
        (i.items.map (fun it => it.quantity * it.unitPrice)).sum ∧
      (invoicePreSave i).taxRate = i.taxRate ∧
      (invoicePreSave i).taxAmount = (invoicePreSave i).subtotal * (i.taxRate / 100) ∧
      (invoicePreSave i).totalAmount =
        (invoicePreSave i).subtotal + (invoicePreSave i).taxAmount) ∧
    (∀ (i : Invoice) (s : Store) (i' : Invoice) (s' : Store),
      invoiceCreate i s = .ok (i', s') →
      (∀ it ∈ i'.items, it.total = it.quantity * it.unitPrice) ∧
      i'.taxAmount = i'.subtotal * (i'.taxRate / 100) ∧
      i'.totalAmount = i'.subtotal + i'.taxAmount) ∧
    (invoicePreSave { sampleInvoice with
                      taxRate := 15,
                      items := [⟨"Handling", 2, 100, 0⟩,
                                ⟨"Docs", 1, 50, 0⟩] }).subtotal = 250 ∧
    (invoicePreSave { sampleInvoice with
                      taxRate := 15,
                      items := [⟨"Handling", 2, 100, 0⟩,
                                ⟨"Docs", 1, 50, 0⟩] }).taxAmount = 75 / 2 ∧
    (invoicePreSave { sampleInvoice with
                      taxRate := 15,
                      items := [⟨"Handling", 2, 100, 0⟩,
                                ⟨"Docs", 1, 50, 0⟩] }).totalAmount = 575 / 2 := by
  have hhook : ∀ i : Invoice,
      (∀ it ∈ (invoicePreSave i).items, it.total = it.quantity * it.unitPrice) ∧
      (invoicePreSave i).subtotal = ((invoicePreSave i).items.map Item.total).sum ∧
      (invoicePreSave i).subtotal =
        (i.items.map (fun it => it.quantity * it.unitPrice)).sum ∧
      (invoicePreSave i).taxRate = i.taxRate ∧
      (invoicePreSave i).taxAmount = (invoicePreSave i).subtotal * (i.taxRate / 100) ∧
      (invoicePreSave i).totalAmount =
        (invoicePreSave i).subtotal + (invoicePreSave i).taxAmount := by
    intro i
    refine ⟨?_, ?_, ?_, rfl, rfl, rfl⟩
    · intro it hit
      simp only [invoicePreSave, List.mem_map] at hit
      obtain ⟨x, _, rfl⟩ := hit
      rfl
    · simp [invoicePreSave, List.sum_eq_foldl]
    · simp only [invoicePreSave, List.sum_eq_foldl, List.map_map]
      rfl
  refine ⟨hhook, ?_, ?_, ?_, ?_⟩
  · intro i s i' s' h
    simp only [invoiceCreate] at h
    split at h
    · injection h with h'
      injection h' with h1 h2
      subst h1
      obtain ⟨h3, _, _, _, h4, h5⟩ := hhook { i with id := s.invoices.length }
      exact ⟨h3, h4, h5⟩
    · exact absurd h (by simp)
  · simp [invoicePreSave, sampleInvoice]; norm_num
  · simp [invoicePreSave, sampleInvoice]; norm_num
  · simp [invoicePreSave, sampleInvoice]; norm_num

/-! ## C4 — invalid webhook signature -/

/-- **C4**: whenever signature verification over the raw body fails, the
webhook handler answers 400 with the error text and the store — every
Payment and every Invoice — is exactly as before; the event body is only
ever obtained from a successful verification. -/
theorem webhook_invalid_signature_rejected (year : Nat) (msg : String)
    (emailOk smsEnabled smsOk : Bool) (now : Int) (s : Store) :
    handleStripeWebhook year (.error msg) emailOk smsEnabled smsOk now s =
      ((400, .errText ("Webhook Error: " ++ msg)), s) := rfl

/-! ## C8 — overdue-reminder batch semantics -/

/-- The loop counts exactly the successful attempts and collects exactly
the failures, in order. -/
theorem remindLoop_spec (emailer : Payment → Option String) (l : List Payment) :
    remindLoop emailer l =
      ((l.filter (fun p => (emailer p).isNone)).length,
       l.filterMap (fun p => (emailer p).map (fun m => ⟨p.invoiceNumber, m⟩))) := by
  induction l with
  | nil => rfl
  | cons p ps ih =>
    cases h : emailer p <;>
      simp [remindLoop, ih, h, List.filter_cons, List.filterMap_cons]

/-- **C8**: SendOverdueReminders attempts a reminder for every overdue
payment (pending with due date in the past), keeps going past individual
failures, and answers 200 with the number sent, the total overdue and the
per-item error list; sent + failed = total; and on 5 overdue payments of
which one throws, the result is `{remindersSent: 4, totalOverdue: 5,
errors: [{payment, error}]}`. -/
theorem sendOverdueReminders_batch :
    (∀ (emailer : Payment → Option String) (now : Int) (s : Store),
      (sendOverdueReminders emailer now s).1 = ⟨200, true, none⟩ ∧
      (sendOverdueReminders emailer now s).2.totalOverdue =
        (overdueFilter now s).length ∧
      (sendOverdueReminders emailer now s).2.remindersSent =
        ((overdueFilter now s).filter (fun p => (emailer p).isNone)).length ∧
      (sendOverdueReminders emailer now s).2.errors =
        (overdueFilter now s).filterMap
          (fun p => (emailer p).map (fun m => ⟨p.invoiceNumber, m⟩)) ∧
      (sendOverdueReminders emailer now s).2.remindersSent +
          (sendOverdueReminders emailer now s).2.errors.length =
        (sendOverdueReminders emailer now s).2.totalOverdue) ∧
    sendOverdueReminders
      (fun p => if p.invoiceNumber == "INV-2024-00002" then
          some "SMTP connection refused" else none)
      100
      ⟨["client1"],
       [{ samplePayment with id := 0, invoiceNumber := "INV-2024-00001", dueDate := 50 },
        { samplePayment with id := 1, invoiceNumber := "INV-2024-00002", dueDate := 50 },
        { samplePayment with id := 2, invoiceNumber := "INV-2024-00003", dueDate := 50 },
        { samplePayment with id := 3, invoiceNumber := "INV-2024-00004", dueDate := 50 },
        { samplePayment with id := 4, invoiceNumber := "INV-2024-00005", dueDate := 50 },
        { samplePayment with id := 5, invoiceNumber := "INV-2024-00006",
                             dueDate := 50, status := "completed" }], []⟩ =
    (⟨200, true, none⟩,
     ⟨4, 5, [⟨"INV-2024-00002", "SMTP connection refused"⟩]⟩) := by
  constructor
  · intro emailer now s
    have h := remindLoop_spec emailer (overdueFilter now s)
    refine ⟨rfl, rfl, ?_, ?_, ?_⟩
    · simp [sendOverdueReminders, h]
    · simp [sendOverdueReminders, h]
    · simp only [sendOverdueReminders, h]
      generalize overdueFilter now s = l
      induction l with
      | nil => rfl
      | cons p ps ih =>
        cases hp : emailer p <;>
          simp [List.filter_cons, List.filterMap_cons, hp] <;> omega
  · rfl

/-! ## C10 — payment listing is owner-scoped -/

/-- **C10**: every payment in the page returned by GetClientPayments
belongs to the authenticated caller, whatever the page, limit and status
filter; payments of other clients never appear. -/
theorem getClientPayments_owner_only (uid : String) (pageQ limitQ : Option Nat)
    (statusQ : Option String) (s : Store) (p : Payment)
    (hp : p ∈ (getClientPayments uid pageQ limitQ statusQ s).2.1) :
    p.client = uid := by
  simp only [getClientPayments] at hp
  have h1 := List.mem_of_mem_take hp
  have h2 := List.mem_of_mem_drop h1
  have h3 := (List.mergeSort_perm _ _).mem_iff.mp h2
  have h4 := List.mem_filter.mp h3
  have h5 := h4.2
  simp only [Bool.and_eq_true, beq_iff_eq] at h5
  exact h5.1

/-- Witness for **C10**: on a store holding one payment owned by
`client1`, the returned page contains that payment, and the theorem gives
its ownership. -/
theorem getClientPayments_owner_only_witness :
    samplePayment ∈
      (getClientPayments "client1" none none none
        ⟨["client1"], [samplePayment], []⟩).2.1 ∧
    samplePayment.client = "client1" := by
  have hfilter :
      (Store.payments ⟨["client1"], [samplePayment], []⟩).filter (fun p =>
        p.client == "client1" &&
          (match (none : Option String) with
           | some st => p.status == st | none => true)) = [samplePayment] := by
    simp [samplePayment]
  have hsorted :
      ([samplePayment].mergeSort
        (fun a b => decide (b.createdAt ≤ a.createdAt))) = [samplePayment] :=
    List.perm_singleton.mp (List.mergeSort_perm _ _)
  have hmem : samplePayment ∈
      (getClientPayments "client1" none none none
        ⟨["client1"], [samplePayment], []⟩).2.1 := by
    simp only [getClientPayments, hfilter, hsorted]
    simp
  exact ⟨hmem, getClientPayments_owner_only "client1" none none none
    ⟨["client1"], [samplePayment], []⟩ samplePayment hmem⟩

/-! ## C7 — invoice number generation is unreachable

The generator lives in a user `pre('save')` hook
(`paymentSchema.pre('save')`), but mongoose runs document validation —
its built-in first `pre('save')` hook — before all user `pre('save')`
hooks, and `invoiceNumber` is declared `required: true`: a fresh
document without an invoice number is rejected before the hook can
assign one. -/

/-- **C7** (code bug): `Payment.create` on a document that carries no
invoice number yet — and is otherwise fully schema-valid — throws a
validation error before the number-generating `pre('save')` hook runs,
so no `INV-<year>-…` number is ever produced at creation time: three
creation attempts in 2024 starting from an empty store leave the store
empty, instead of yielding INV-2024-00001 through INV-2024-00003 as the
claim states. -/
theorem payment_number_generation_unreachable :
    paymentCreate 2024 { samplePayment with invoiceNumber := "" } ⟨[], [], []⟩ =
      .error "Payment validation failed" ∧
    paymentCreateSeq 2024
      [{ samplePayment with invoiceNumber := "" },
       { samplePayment with invoiceNumber := "" },
       { samplePayment with invoiceNumber := "" }] ⟨[], [], []⟩ = ⟨[], [], []⟩ ∧
    (paymentCreateSeq 2024
      [{ samplePayment with invoiceNumber := "" },
       { samplePayment with invoiceNumber := "" },
       { samplePayment with invoiceNumber := "" }] ⟨[], [], []⟩).payments.map
      Payment.invoiceNumber = [] := by
  exact ⟨rfl, rfl, rfl⟩

/-- Witness for **C3**: a concrete successful `Invoice.create`
discharging the persistence hypothesis of the invariant theorem. -/
theorem invoice_totals_invariant_witness :
    invoiceCreate { sampleInvoice with taxRate := 0 } ⟨["client1"], [], []⟩ =
      .ok (sampleCreatedInvoice, ⟨["client1"], [], [sampleCreatedInvoice]⟩) ∧
    sampleCreatedInvoice.taxAmount =
      sampleCreatedInvoice.subtotal * (sampleCreatedInvoice.taxRate / 100) ∧
    sampleCreatedInvoice.totalAmount =
      sampleCreatedInvoice.subtotal + sampleCreatedInvoice.taxAmount := by
  have e1 : (0 : ℚ) * (0 / 100) = 0 := by norm_num
  have hc : invoiceCreate { sampleInvoice with taxRate := 0 } ⟨["client1"], [], []⟩ =
      .ok (sampleCreatedInvoice, ⟨["client1"], [], [sampleCreatedInvoice]⟩) := by
    simp [invoiceCreate, invoicePreSave, invoiceValidate, sampleInvoice,
      sampleCreatedInvoice, e1, invoiceStatusEnum]
  exact ⟨hc, (invoice_totals_invariant.2.1 _ _ _ _ hc).2.1,
    (invoice_totals_invariant.2.1 _ _ _ _ hc).2.2⟩


/-! ## C5, C6 and C2 — capture transitions, webhook acknowledgements,
and notification-failure containment -/

theorem paymentValidate_not_empty (p : Payment) (h : paymentValidate p = true) :
    ¬ p.invoiceNumber = "" := by
  simp only [paymentValidate, paymentFieldsValid, Bool.and_eq_true,
    bne_iff_ne, ne_eq] at h
  exact h.2.1.1.1

theorem paymentResave_ok (year : Nat) (p : Payment) (s : Store)
    (h : paymentValidate p = true) :
    paymentResave year p s = .ok (overwritePayment s p) := by
  simp [paymentResave, paymentPreSave, paymentValidate_not_empty p h, h]

theorem paymentValidate_completed (pl : GatewayPayload) (now : Int) (p : Payment)
    (h : paymentFieldsValid p = true) :
    paymentValidate (completedPayment pl now p) = true := by
  have hf : paymentFieldsValid (completedPayment pl now p) = true := h
  have hst : (completedPayment pl now p).status = "completed" := rfl
  simp [paymentValidate, paymentStatusEnum, hst, hf]

theorem paymentValidate_failed (p : Payment) (h : paymentFieldsValid p = true) :
    paymentValidate (failedPayment p) = true := by
  have hf : paymentFieldsValid (failedPayment p) = true := h
  have hst : (failedPayment p).status = "failed" := rfl
  simp [paymentValidate, paymentStatusEnum, hst, hf]

theorem paymentValidate_receiptSent (p : Payment) :
    paymentValidate (receiptSentPayment p) = paymentValidate p := rfl

theorem overwritePayment_users (s : Store) (x : Payment) :
    (overwritePayment s x).users = s.users := rfl

theorem overwritePayment_invoices (s : Store) (x : Payment) :
    (overwritePayment s x).invoices = s.invoices := rfl

theorem markInvoicePaid_users (pid : Nat) (now : Int) (s : Store) :
    (markInvoicePaid pid now s).users = s.users := rfl

theorem markInvoicePaid_payments (pid : Nat) (now : Int) (s : Store) :
    (markInvoicePaid pid now s).payments = s.payments := rfl

theorem completedPayment_client (pl : GatewayPayload) (now : Int) (p : Payment) :
    (completedPayment pl now p).client = p.client := rfl

theorem mem_overwrite_eq (s : Store) (x : Payment) :
    ∀ q ∈ (overwritePayment s x).payments, q.id = x.id → q = x := by
  intro q hq hid
  simp only [overwritePayment, List.mem_map] at hq
  obtain ⟨r, _, rfl⟩ := hq
  by_cases hr : r.id = x.id
  · simp [hr]
  · simp only [if_neg hr] at hid ⊢
    exact absurd hid hr

theorem findOneAndUpdate_exists (pid : Nat) (f : Invoice → Invoice) :
    ∀ l : List Invoice, (∃ i ∈ l, i.payment = pid) →
      ∃ i, i.payment = pid ∧ f i ∈ findOneAndUpdateInvoiceAux pid f l := by
  intro l
  induction l with
  | nil => rintro ⟨i, hi, _⟩; cases hi
  | cons a t ih =>
    rintro ⟨i, hi, hp⟩
    by_cases ha : a.payment = pid
    · exact ⟨a, ha, by simp [findOneAndUpdateInvoiceAux, ha]⟩
    · have hit : i ∈ t := by
        rcases List.mem_cons.mp hi with rfl | h
        · exact absurd hp ha
        · exact h
      obtain ⟨j, hj, hjm⟩ := ih ⟨i, hit, hp⟩
      exact ⟨j, hj, by simp [findOneAndUpdateInvoiceAux, ha, hjm]⟩

theorem markInvoicePaid_paid_exists (pid : Nat) (now : Int) (s : Store)
    (hex : ∃ i ∈ s.invoices, i.payment = pid) :
    ∃ i ∈ (markInvoicePaid pid now s).invoices,
      i.payment = pid ∧ i.status = "paid" ∧ i.paidAt = some now := by
  obtain ⟨i, hip, hmem⟩ := findOneAndUpdate_exists pid
    (fun i => { i with status := "paid", paidAt := some now }) s.invoices hex
  exact ⟨_, hmem, hip, rfl, rfl⟩

/-- **C5**: when CaptureOrder reaches a found Payment on a non-error
gateway response: a non-COMPLETED capture status sets the Payment to
`failed` and returns the non-success 400 result, while COMPLETED sets the
Payment to `completed`, stamps `paidAt`, stores the raw capture payload,
and marks the linked Invoice `paid` — whatever the later receipt email
does. -/
theorem capture_transitions (year : Nat) (cd : CaptureData) (emailOk : Bool)
    (now : Int) (orderId : String) (s : Store) (p : Payment)
    (hfind : findPaymentByGatewayId s orderId = some p)
    (hnoerr : cd.isError = false)
    (hval : paymentFieldsValid p = true) :
    (cd.status ≠ "COMPLETED" →
      (capturePayPalOrder year cd emailOk now orderId s).1 =
        ⟨400, false, some "Payment capture failed"⟩ ∧
      ∀ q ∈ (capturePayPalOrder year cd emailOk now orderId s).2.payments,
        q.id = p.id → q.status = "failed") ∧
    (cd.status = "COMPLETED" →
      (∀ q ∈ (capturePayPalOrder year cd emailOk now orderId s).2.payments,
        q.id = p.id → q.status = "completed" ∧ q.paidAt = some now ∧
          q.paymentDetails = some (.capture cd)) ∧
      ((∃ i ∈ s.invoices, i.payment = p.id) →
        ∃ i ∈ (capturePayPalOrder year cd emailOk now orderId s).2.invoices,
          i.payment = p.id ∧ i.status = "paid" ∧ i.paidAt = some now)) := by
  constructor
  · intro hne
    have hrun : capturePayPalOrder year cd emailOk now orderId s =
        (⟨400, false, some "Payment capture failed"⟩,
         overwritePayment s (failedPayment p)) := by
      simp [capturePayPalOrder, hnoerr, hfind, hne,
        paymentResave_ok year _ s (paymentValidate_failed p hval)]
    rw [hrun]
    refine ⟨rfl, ?_⟩
    intro q hq hid
    have hqe := mem_overwrite_eq s (failedPayment p) q hq hid
    rw [hqe]
    rfl
  · intro hc
    have hres := paymentResave_ok year (completedPayment (.capture cd) now p) s
      (paymentValidate_completed _ now p hval)
    by_cases hu : p.client ∈ s.users
    · cases emailOk with
      | false =>
        have hrun : capturePayPalOrder year cd false now orderId s =
            (⟨500, false, some "email send failed"⟩,
             markInvoicePaid p.id now
               (overwritePayment s (completedPayment (.capture cd) now p))) := by
          simp [capturePayPalOrder, hnoerr, hfind, hc, hres, sendPaymentReceipt,
            markInvoicePaid_users, overwritePayment_users, completedPayment_client, hu]
        rw [hrun]
        constructor
        · intro q hq hid
          have hqe := mem_overwrite_eq s (completedPayment (.capture cd) now p) q hq hid
          rw [hqe]
          exact ⟨rfl, rfl, rfl⟩
        · intro hex
          exact markInvoicePaid_paid_exists p.id now _ hex
      | true =>
        have hres2 : paymentResave year
            (receiptSentPayment (completedPayment (.capture cd) now p))
            (markInvoicePaid p.id now
              (overwritePayment s (completedPayment (.capture cd) now p))) =
            .ok (overwritePayment
              (markInvoicePaid p.id now
                (overwritePayment s (completedPayment (.capture cd) now p)))
              (receiptSentPayment (completedPayment (.capture cd) now p))) := by
          apply paymentResave_ok
          rw [paymentValidate_receiptSent]
          exact paymentValidate_completed _ now p hval
        have hrun : capturePayPalOrder year cd true now orderId s =
            (⟨200, true, none⟩,
             overwritePayment
               (markInvoicePaid p.id now
                 (overwritePayment s (completedPayment (.capture cd) now p)))
               (receiptSentPayment (completedPayment (.capture cd) now p))) := by
          simp [capturePayPalOrder, hnoerr, hfind, hc, hres, sendPaymentReceipt,
            markInvoicePaid_users, overwritePayment_users, completedPayment_client,
            hu, hres2]
        rw [hrun]
        constructor
        · intro q hq hid
          have hqe := mem_overwrite_eq _
            (receiptSentPayment (completedPayment (.capture cd) now p)) q hq hid
          rw [hqe]
          exact ⟨rfl, rfl, rfl⟩
        · intro hex
          exact markInvoicePaid_paid_exists p.id now _ hex
    · have hrun : capturePayPalOrder year cd emailOk now orderId s =
          (⟨500, false, some "client lookup failed"⟩,
           markInvoicePaid p.id now
             (overwritePayment s (completedPayment (.capture cd) now p))) := by
        simp [capturePayPalOrder, hnoerr, hfind, hc, hres, sendPaymentReceipt,
          markInvoicePaid_users, overwritePayment_users, completedPayment_client, hu]
      rw [hrun]
      constructor
      · intro q hq hid
        have hqe := mem_overwrite_eq s (completedPayment (.capture cd) now p) q hq hid
        rw [hqe]
        exact ⟨rfl, rfl, rfl⟩
      · intro hex
        exact markInvoicePaid_paid_exists p.id now _ hex



theorem invoicePreSave_commute (i : Invoice) (st : String) (sa : Option Int)
    (pu : Option String) :
    invoicePreSave { i with status := st, sentAt := sa, pdfUrl := pu } =
      { invoicePreSave i with status := st, sentAt := sa, pdfUrl := pu } := rfl

theorem invoicePreSave_idem (i : Invoice) :
    invoicePreSave (invoicePreSave i) = invoicePreSave i := by
  simp [invoicePreSave, List.map_map, Function.comp]
  exact ⟨rfl, Or.inl rfl, rfl⟩

theorem invoiceValidate_update (i : Invoice) (h : invoiceValidate i = true)
    (st : String) (hst : invoiceStatusEnum.contains st = true)
    (sa : Option Int) (pu : Option String) :
    invoiceValidate { i with status := st, sentAt := sa, pdfUrl := pu } = true := by
  simp only [invoiceValidate, Bool.and_eq_true] at h ⊢
  tauto



theorem invoiceResave_of_hooked (j : Invoice)
    (hj : invoiceValidate (invoicePreSave j) = true)
    (st : String) (hst : invoiceStatusEnum.contains st = true)
    (sa : Option Int) (pu : Option String) (s : Store) :
    invoiceResave { invoicePreSave j with status := st, sentAt := sa, pdfUrl := pu } s =
      .ok { s with invoices := s.invoices.map (fun q =>
             if q.id = (invoicePreSave j).id then
               { invoicePreSave j with status := st, sentAt := sa, pdfUrl := pu }
             else q) } := by
  have h1 : invoicePreSave { invoicePreSave j with status := st, sentAt := sa, pdfUrl := pu } =
      { invoicePreSave j with status := st, sentAt := sa, pdfUrl := pu } := by
    rw [invoicePreSave_commute, invoicePreSave_idem]
  have h2 := invoiceValidate_update (invoicePreSave j) hj st hst sa pu
  simp [invoiceResave, h1, h2]

theorem createPayment_email_indep (year : Nat) (now : Int) (userId : String)
    (req : CreatePaymentReq) (s : Store) (e1 e2 : Bool) :
    (createPayment year now e1 userId req s).1 =
      (createPayment year now e2 userId req s).1 := by
  simp only [createPayment]
  split
  · rfl
  · rename_i itemsv heqitems
    by_cases h0 : itemsv.length = 0
    · simp [h0]
    · by_cases hu : userId ∈ s.users
      · simp only [h0, ite_false, if_false]
        have hu2 : (¬ s.users.contains userId) = False := by simp [hu]
        simp only [hu2, if_false, ite_false]
        split
        · rfl
        · rename_i payment s1 heqp
          split
          · rfl
          · rename_i invoice s2 heqi
            simp only [invoiceCreate] at heqi
            split at heqi
            · rename_i hvalid
              injection heqi with hpair
              injection hpair with hinv hs2
              subst hinv
              split
              · rfl
              · rename_i s3 heqr
                rw [invoiceResave_of_hooked _ hvalid "sent" (by decide)]
                cases e1 <;> cases e2 <;> rfl
            · exact absurd heqi (by simp)
      · simp [h0, hu]



theorem hpis_sms_irrel (year : Nat) (emailOk smsEnabled sms1 sms2 : Bool)
    (now : Int) (gid : String) (t : Store) :
    handlePaymentIntentSucceeded year emailOk smsEnabled sms1 now gid t =
      handlePaymentIntentSucceeded year emailOk smsEnabled sms2 now gid t := by
  simp only [handlePaymentIntentSucceeded, ite_self]

theorem webhook_sms_irrel (year : Nat) (verified : Except String StripeEvent)
    (emailOk smsEnabled sms1 sms2 : Bool) (now : Int) (t : Store) :
    handleStripeWebhook year verified emailOk smsEnabled sms1 now t =
      handleStripeWebhook year verified emailOk smsEnabled sms2 now t := by
  cases verified with
  | error msg => rfl
  | ok ev =>
    simp only [handleStripeWebhook,
      hpis_sms_irrel year emailOk smsEnabled sms1 sms2 now ev.objectId t]

theorem sendPaymentReceipt_emailFail (year : Nat) (p : Payment) (t : Store) :
    sendPaymentReceipt year false p t = .error "client lookup failed" ∨
    sendPaymentReceipt year false p t = .error "email send failed" := by
  by_cases hu : t.users.contains p.client
  · right
    have hm : p.client ∈ t.users := by simpa using hu
    simp only [sendPaymentReceipt]
    rw [if_neg (by simp [hm]), if_pos (by simp)]
  · left
    simp only [sendPaymentReceipt]
    rw [if_pos (by simpa using hu)]

theorem webhook_receipt_email_failure (year : Nat) (s : Store) (gid : String)
    (p : Payment) (now : Int) (smsEnabled smsOk : Bool)
    (hfind : findPaymentByGatewayId s gid = some p)
    (hval : paymentFieldsValid p = true) :
    (handleStripeWebhook year (.ok ⟨"payment_intent.succeeded", gid⟩)
        false smsEnabled smsOk now s).1 = (500, .processingFailed) := by
  have hres := paymentResave_ok year (completedPayment (.intent gid) now p) s
    (paymentValidate_completed _ now p hval)
  rcases sendPaymentReceipt_emailFail year (completedPayment (.intent gid) now p)
      (markInvoicePaid p.id now
        (overwritePayment s (completedPayment (.intent gid) now p))) with he | he <;>
    simp [handleStripeWebhook, handlePaymentIntentSucceeded, hfind, hres, he]

theorem capture_receipt_email_failure (year : Nat) (s : Store) (gid : String)
    (p : Payment) (now : Int) (cd : CaptureData)
    (hfind : findPaymentByGatewayId s gid = some p)
    (hval : paymentFieldsValid p = true)
    (hnoerr : cd.isError = false) (hc : cd.status = "COMPLETED") :
    (capturePayPalOrder year cd false now gid s).1.status = 500 ∧
    (capturePayPalOrder year cd false now gid s).1.success = false := by
  have hres := paymentResave_ok year (completedPayment (.capture cd) now p) s
    (paymentValidate_completed _ now p hval)
  rcases sendPaymentReceipt_emailFail year (completedPayment (.capture cd) now p)
      (markInvoicePaid p.id now
        (overwritePayment s (completedPayment (.capture cd) now p))) with he | he <;>
    simp [capturePayPalOrder, hnoerr, hfind, hc, hres, he]

/-- **C2** (amended): CreatePayment's invoice email is caught at the
call site — the response is independent of the email outcome — and the
webhook's SMS is caught at the call site — the whole webhook result is
independent of the SMS outcome.  But the receipt email of the webhook
completed-transition and of CaptureOrder is NOT caught at its call site:
its failure propagates, the webhook answers 500 instead of the 200
acknowledgement and CaptureOrder answers 500 instead of success (the
payment/invoice updates persisted before the email remain in place). -/
theorem notification_error_containment (year : Nat) (s : Store) (gid : String)
    (p : Payment) (now : Int)
    (hfind : findPaymentByGatewayId s gid = some p)
    (hval : paymentFieldsValid p = true) :
    (∀ (now' : Int) (uid : String) (req : CreatePaymentReq) (t : Store) (e1 e2 : Bool),
      (createPayment year now' e1 uid req t).1 = (createPayment year now' e2 uid req t).1) ∧
    (∀ (verified : Except String StripeEvent) (emailOk smsEnabled sms1 sms2 : Bool)
        (now' : Int) (t : Store),
      handleStripeWebhook year verified emailOk smsEnabled sms1 now' t =
        handleStripeWebhook year verified emailOk smsEnabled sms2 now' t) ∧
    (∀ smsEnabled smsOk : Bool,
      (handleStripeWebhook year (.ok ⟨"payment_intent.succeeded", gid⟩)
          false smsEnabled smsOk now s).1 = (500, .processingFailed)) ∧
    (∀ cd : CaptureData, cd.isError = false → cd.status = "COMPLETED" →
      (capturePayPalOrder year cd false now gid s).1.status = 500 ∧
      (capturePayPalOrder year cd false now gid s).1.success = false) := by
  refine ⟨fun now' uid req t e1 e2 => createPayment_email_indep year now' uid req t e1 e2,
    fun verified emailOk smsEnabled sms1 sms2 now' t =>
      webhook_sms_irrel year verified emailOk smsEnabled sms1 sms2 now' t,
    fun smsEnabled smsOk =>
      webhook_receipt_email_failure year s gid p now smsEnabled smsOk hfind hval,
    fun cd hno hc =>
      capture_receipt_email_failure year s gid p now cd hfind hval hno hc⟩

/-- Counterexample for **C2** as stated: with a matching processing
payment, a webhook completed-transition whose receipt email throws makes
the whole webhook report failure (HTTP 500), not success — notification
errors do change the operation's result. -/
theorem notification_failure_counterexample :
    (handleStripeWebhook 2024 (.ok ⟨"payment_intent.succeeded", "pi_1"⟩) false true true 100
        ⟨["client1"], [{ samplePayment with paymentGatewayId := some "pi_1" }], []⟩).1 =
      (500, .processingFailed) := by rfl

/-- Witness for **C2** (amended) at concrete inputs: the 500 responses
of the webhook and capture paths under a thrown receipt email, and the
email-independence of CreatePayment's response. -/
theorem notification_error_containment_witness :
    (handleStripeWebhook 2024 (.ok ⟨"payment_intent.succeeded", "pi_9"⟩) false true true 100
        ⟨["client1"], [{ samplePayment with paymentGatewayId := some "pi_9" }], []⟩).1 =
      (500, .processingFailed) ∧
    (capturePayPalOrder 2024 ⟨"COMPLETED", false, ""⟩ false 100 "pi_9"
        ⟨["client1"], [{ samplePayment with paymentGatewayId := some "pi_9" }], []⟩).1.status = 500 ∧
    (createPayment 2024 0 false "client1" ⟨none, some "q1", some [⟨"Docs", 1, 50, 50⟩], none, none⟩
        ⟨["client1"], [{ samplePayment with paymentGatewayId := some "pi_9" }], []⟩).1 =
      (createPayment 2024 0 true "client1" ⟨none, some "q1", some [⟨"Docs", 1, 50, 50⟩], none, none⟩
        ⟨["client1"], [{ samplePayment with paymentGatewayId := some "pi_9" }], []⟩).1 := by
  have h := notification_error_containment 2024
    ⟨["client1"], [{ samplePayment with paymentGatewayId := some "pi_9" }], []⟩ "pi_9"
    { samplePayment with paymentGatewayId := some "pi_9" } 100 rfl (by decide)
  exact ⟨h.2.2.1 true true, (h.2.2.2 ⟨"COMPLETED", false, ""⟩ rfl rfl).1,
    h.1 0 "client1" ⟨none, some "q1", some [⟨"Docs", 1, 50, 50⟩], none, none⟩
      ⟨["client1"], [{ samplePayment with paymentGatewayId := some "pi_9" }], []⟩ false true⟩

/-- **C6**: a validly-signed `payment_intent.succeeded` event whose
gateway transaction id matches no stored Payment is acknowledged with
200 `{received: true}` and the store is untouched, and an event of an
unrecognized type is likewise acknowledged with 200 and ignored. -/
theorem webhook_unknown_ack (year : Nat) (emailOk smsEnabled smsOk : Bool)
    (now : Int) (s : Store) (gid ty : String)
    (hunknown : ∀ p ∈ s.payments, p.paymentGatewayId ≠ some gid)
    (hty1 : ty ≠ "payment_intent.succeeded")
    (hty2 : ty ≠ "payment_intent.payment_failed") :
    handleStripeWebhook year (.ok ⟨"payment_intent.succeeded", gid⟩)
        emailOk smsEnabled smsOk now s = ((200, .received), s) ∧
    handleStripeWebhook year (.ok ⟨ty, gid⟩) emailOk smsEnabled smsOk now s =
      ((200, .received), s) := by
  have hfind : findPaymentByGatewayId s gid = none := by
    simp only [findPaymentByGatewayId, List.find?_eq_none, decide_eq_true_eq]
    exact hunknown
  constructor
  · simp [handleStripeWebhook, handlePaymentIntentSucceeded, hfind]
  · simp [handleStripeWebhook, hty1, hty2]

/-- Witness for **C6** on a concrete store holding one unrelated
payment. -/
theorem webhook_unknown_ack_witness :
    handleStripeWebhook 2024 (.ok ⟨"payment_intent.succeeded", "pi_X"⟩) true true true 100
        ⟨["client1"], [{ samplePayment with paymentGatewayId := some "pi_A" }], []⟩ =
      ((200, .received),
       ⟨["client1"], [{ samplePayment with paymentGatewayId := some "pi_A" }], []⟩) ∧
    handleStripeWebhook 2024 (.ok ⟨"charge.refunded", "pi_X"⟩) true true true 100
        ⟨["client1"], [{ samplePayment with paymentGatewayId := some "pi_A" }], []⟩ =
      ((200, .received),
       ⟨["client1"], [{ samplePayment with paymentGatewayId := some "pi_A" }], []⟩) := by
  exact webhook_unknown_ack 2024 true true true 100
    ⟨["client1"], [{ samplePayment with paymentGatewayId := some "pi_A" }], []⟩
    "pi_X" "charge.refunded" (by decide) (by decide) (by decide)



/-- Witness for **C5**: a concrete COMPLETED capture completes the stored
payment and a concrete PENDING capture yields the 400 non-success
response. -/
theorem capture_transitions_witness :
    ((capturePayPalOrder 2024 ⟨"COMPLETED", false, ""⟩ true 100 "order1"
        ⟨["client1"],
         [{ samplePayment with paymentGatewayId := some "order1", paymentMethod := "paypal" }],
         [sampleInvoice]⟩).2.payments.getD 0 samplePayment).status = "completed" ∧
    ((capturePayPalOrder 2024 ⟨"COMPLETED", false, ""⟩ true 100 "order1"
        ⟨["client1"],
         [{ samplePayment with paymentGatewayId := some "order1", paymentMethod := "paypal" }],
         [sampleInvoice]⟩).2.payments.getD 0 samplePayment).paidAt = some 100 ∧
    ((capturePayPalOrder 2024 ⟨"COMPLETED", false, ""⟩ true 100 "order1"
        ⟨["client1"],
         [{ samplePayment with paymentGatewayId := some "order1", paymentMethod := "paypal" }],
         [sampleInvoice]⟩).2.payments.getD 0 samplePayment).paymentDetails =
      some (.capture ⟨"COMPLETED", false, ""⟩) ∧
    (capturePayPalOrder 2024 ⟨"PENDING", false, ""⟩ true 100 "order1"
        ⟨["client1"],
         [{ samplePayment with paymentGatewayId := some "order1", paymentMethod := "paypal" }],
         [sampleInvoice]⟩).1 = ⟨400, false, some "Payment capture failed"⟩ := by
  have h1 := capture_transitions 2024 ⟨"COMPLETED", false, ""⟩ true 100 "order1"
    ⟨["client1"],
     [{ samplePayment with paymentGatewayId := some "order1", paymentMethod := "paypal" }],
     [sampleInvoice]⟩
    { samplePayment with paymentGatewayId := some "order1", paymentMethod := "paypal" }
    rfl rfl (by decide)
  have h2 := capture_transitions 2024 ⟨"PENDING", false, ""⟩ true 100 "order1"
    ⟨["client1"],
     [{ samplePayment with paymentGatewayId := some "order1", paymentMethod := "paypal" }],
     [sampleInvoice]⟩
    { samplePayment with paymentGatewayId := some "order1", paymentMethod := "paypal" }
    rfl rfl (by decide)
  have hlist : (capturePayPalOrder 2024 ⟨"COMPLETED", false, ""⟩ true 100 "order1"
      ⟨["client1"],
       [{ samplePayment with paymentGatewayId := some "order1", paymentMethod := "paypal" }],
       [sampleInvoice]⟩).2.payments =
      [receiptSentPayment (completedPayment (.capture ⟨"COMPLETED", false, ""⟩) 100
        { samplePayment with paymentGatewayId := some "order1", paymentMethod := "paypal" })] := rfl
  have hall := (h1.2 rfl).1
  have hmem : (capturePayPalOrder 2024 ⟨"COMPLETED", false, ""⟩ true 100 "order1"
      ⟨["client1"],
       [{ samplePayment with paymentGatewayId := some "order1", paymentMethod := "paypal" }],
       [sampleInvoice]⟩).2.payments.getD 0 samplePayment ∈
      (capturePayPalOrder 2024 ⟨"COMPLETED", false, ""⟩ true 100 "order1"
      ⟨["client1"],
       [{ samplePayment with paymentGatewayId := some "order1", paymentMethod := "paypal" }],
       [sampleInvoice]⟩).2.payments := by
    rw [hlist]
    exact List.mem_singleton.mpr rfl
  obtain ⟨ha, hb, hc⟩ := hall _ hmem rfl
  exact ⟨ha, hb, hc, (h2.1 (by decide)).1⟩

/-! ## C9 — CSV export round-trip -/

theorem scanQ_append (a b : List Char) : ∀ q, scanQ q (a ++ b) = scanQ (scanQ q a) b := by
  induction a with
  | nil => intro q; rfl
  | cons c t ih => intro q; simp only [List.cons_append, scanQ]; exact ih _

theorem hasTopDelim_append (d : Char) (a b : List Char) : ∀ q,
    hasTopDelim d q (a ++ b) =
      (hasTopDelim d q a || hasTopDelim d (scanQ q a) b) := by
  induction a with
  | nil => intro q; rfl
  | cons c t ih =>
    intro q
    simp only [List.cons_append, hasTopDelim, scanQ]
    by_cases hc : c = '"'
    · simp only [hc, if_pos rfl, if_true]
      exact ih (!q)
    · simp only [if_neg hc]
      by_cases hd : c = d ∧ q = false
      · simp [hd]
      · simp only [if_neg hd]
        exact ih q

theorem clean_cell_facts (d : Char) (l : List Char)
    (hq : '"' ∉ l) (hd : d ∉ l) : ∀ q,
    hasTopDelim d q l = false ∧ scanQ q l = q := by
  induction l with
  | nil => intro q; exact ⟨rfl, rfl⟩
  | cons c t ih =>
    intro q
    have hc : c ≠ '"' := fun h => hq (h ▸ List.mem_cons_self c t)
    have hcd : c ≠ d := fun h => hd (h ▸ List.mem_cons_self c t)
    have iht := ih (fun h => hq (List.mem_cons_of_mem c h))
      (fun h => hd (List.mem_cons_of_mem c h)) q
    simp only [hasTopDelim, scanQ, if_neg hc]
    have : ¬ (c = d ∧ q = false) := fun h => hcd h.1
    simp only [if_neg this]
    exact iht

theorem quoted_tail_facts (d : Char) (l : List Char) (hq : '"' ∉ l) :
    hasTopDelim d true (l ++ ['"']) = false ∧ scanQ true (l ++ ['"']) = false := by
  induction l with
  | nil => exact ⟨rfl, rfl⟩
  | cons c t ih =>
    have hc : c ≠ '"' := fun h => hq (h ▸ List.mem_cons_self c t)
    have iht := ih (fun h => hq (List.mem_cons_of_mem c h))
    simp only [List.cons_append, hasTopDelim, scanQ, if_neg hc]
    have h2 : ¬ (c = d ∧ true = false) := by simp
    simp only [if_neg h2]
    exact iht

theorem quoted_cell_facts (d : Char) (l : List Char) (hq : '"' ∉ l) :
    hasTopDelim d false ('"' :: (l ++ ['"'])) = false ∧
      scanQ false ('"' :: (l ++ ['"'])) = false := by
  have h := quoted_tail_facts d l hq
  simp only [hasTopDelim, scanQ, if_pos rfl]
  exact ⟨h.1, h.2⟩



theorem splitTop_cons (d c : Char) (cs : List Char) (q : Bool) :
    splitTop d (c :: cs) q =
      if c = '"' then consFirst c (splitTop d cs (!q))
      else if c = d ∧ q = false then [] :: splitTop d cs q
      else consFirst c (splitTop d cs q) := rfl

theorem hasTopDelim_cons (d c : Char) (cs : List Char) (q : Bool) :
    hasTopDelim d q (c :: cs) =
      if c = '"' then hasTopDelim d (!q) cs
      else if c = d ∧ q = false then true
      else hasTopDelim d q cs := rfl

theorem scanQ_cons (c : Char) (cs : List Char) (q : Bool) :
    scanQ q (c :: cs) = scanQ (if c = '"' then !q else q) cs := rfl

theorem splitTop_no_delim (d : Char) : ∀ (a : List Char) (q : Bool),
    hasTopDelim d q a = false → splitTop d a q = [a] := by
  intro a
  induction a with
  | nil => intro q _; rfl
  | cons c t ih =>
    intro q h
    rw [hasTopDelim_cons] at h
    rw [splitTop_cons]
    by_cases hc : c = '"'
    · rw [if_pos hc] at h ⊢
      rw [ih (!q) h]
      rfl
    · rw [if_neg hc] at h ⊢
      by_cases hd : c = d ∧ q = false
      · rw [if_pos hd] at h
        exact absurd h (by simp)
      · rw [if_neg hd] at h ⊢
        rw [ih q h]
        rfl

theorem splitTop_append_delim (d : Char) (hne : d ≠ '"') :
    ∀ (a b : List Char) (q : Bool), hasTopDelim d q a = false → scanQ q a = false →
    splitTop d (a ++ d :: b) q = a :: splitTop d b false := by
  intro a
  induction a with
  | nil =>
    intro b q _ hs
    simp only [scanQ] at hs
    subst hs
    rw [List.nil_append, splitTop_cons, if_neg hne, if_pos ⟨rfl, rfl⟩]
  | cons c t ih =>
    intro b q h hs
    rw [hasTopDelim_cons] at h
    rw [scanQ_cons] at hs
    rw [List.cons_append, splitTop_cons]
    by_cases hc : c = '"'
    · rw [if_pos hc] at h ⊢
      rw [if_pos hc] at hs
      rw [ih b (!q) h hs]
      rfl
    · rw [if_neg hc] at h ⊢
      rw [if_neg hc] at hs
      by_cases hd : c = d ∧ q = false
      · rw [if_pos hd] at h
        exact absurd h (by simp)
      · rw [if_neg hd] at h ⊢
        rw [ih b q h hs]
        rfl

theorem joinChars_cons (sep : List Char) (x : List Char) : ∀ l : List (List Char),
    joinChars sep (x :: l) = x ++ sepFlat sep l := by
  intro l
  induction l generalizing x with
  | nil => simp [joinChars, sepFlat]
  | cons y rest ih =>
    simp only [joinChars, sepFlat, ih y, List.append_assoc]

theorem splitTop_join (d : Char) (hne : d ≠ '"') :
    ∀ cells : List (List Char), cells ≠ [] →
    (∀ c ∈ cells, hasTopDelim d false c = false ∧ scanQ false c = false) →
    splitTop d (joinChars [d] cells) false = cells := by
  intro cells
  induction cells with
  | nil => intro h; exact absurd rfl h
  | cons x rest ih =>
    intro _ hall
    cases rest with
    | nil => exact splitTop_no_delim d x false (hall x (by simp)).1
    | cons y rest2 =>
      have hx := hall x (by simp)
      have hjoin : joinChars [d] (x :: y :: rest2) =
          x ++ d :: joinChars [d] (y :: rest2) := by
        simp [joinChars]
      rw [hjoin, splitTop_append_delim d hne x _ false hx.1 hx.2,
        ih (by simp) (fun c hc => hall c (by simp [hc]))]

theorem joinSep_foldl_data (sep : String) : ∀ (xs : List String) (acc : String),
    (xs.foldl (fun a t => a ++ sep ++ t) acc).data =
      acc.data ++ sepFlat sep.data (xs.map String.data) := by
  intro xs
  induction xs with
  | nil => intro acc; simp [sepFlat]
  | cons x t ih =>
    intro acc
    simp only [List.foldl_cons, List.map_cons, sepFlat, ih, String.data_append,
      List.append_assoc]

theorem joinSep_data (sep : String) : ∀ l : List String,
    (joinSep sep l).data = joinChars sep.data (l.map String.data) := by
  intro l
  cases l with
  | nil => rfl
  | cons x t =>
    simp only [joinSep, joinSep_foldl_data, List.map_cons, joinChars_cons]

theorem unquoteCell_plain (l : List Char) (hq : '"' ∉ l) : unquoteCell l = l := by
  cases l with
  | nil => rfl
  | cons c t =>
    have hc : c ≠ '"' := fun h => hq (h ▸ List.mem_cons_self c t)
    rw [unquoteCell.eq_def]
    split
    · rename_i rest heq
      rw [List.cons.injEq] at heq
      exact absurd heq.1 hc
    · rfl

theorem unquoteCell_quoted (l : List Char) :
    unquoteCell ('"' :: (l ++ ['"'])) = l := by
  simp [unquoteCell, List.getLast?_concat, List.dropLast_concat]



theorem joinChars_facts (d' d : Char) (hdd : d ≠ d') (hd : d ≠ '"') :
    ∀ cells : List (List Char),
    (∀ c ∈ cells, hasTopDelim d' false c = false ∧ scanQ false c = false) →
    hasTopDelim d' false (joinChars [d] cells) = false ∧
      scanQ false (joinChars [d] cells) = false := by
  intro cells
  induction cells with
  | nil => intro _; exact ⟨rfl, rfl⟩
  | cons x rest ih =>
    intro hall
    cases rest with
    | nil => exact hall x (by simp)
    | cons y rest2 =>
      have hx := hall x (by simp)
      have hJ := ih (fun c hc => hall c (by simp [hc]))
      have hsep1 : hasTopDelim d' false [d] = false := by
        rw [hasTopDelim_cons, if_neg hd, if_neg (by simp [hdd])]
        rfl
      have hsep2 : scanQ false [d] = false := by
        rw [scanQ_cons, if_neg hd]
        rfl
      have hjoin : joinChars [d] (x :: y :: rest2) =
          (x ++ [d]) ++ joinChars [d] (y :: rest2) := by
        simp [joinChars, List.append_assoc]
      rw [hjoin]
      constructor
      · rw [hasTopDelim_append, hasTopDelim_append, scanQ_append, hx.2, hsep2,
          hx.1, hsep1]
        simpa using hJ.1
      · rw [scanQ_append, scanQ_append, hx.2, hsep2]
        exact hJ.2

theorem csvRow_cell_facts (pp : PopPayment) (h : rowClean pp) (d' : Char)
    (hcomma : d' = ',' ∨ d' = '\n') :
    ∀ c ∈ (csvRowCells pp).map String.data,
      hasTopDelim d' false c = false ∧ scanQ false c = false := by
  obtain ⟨h1, h2, h3, h4, h5, h6, h7, h8⟩ := h
  have hplain : ∀ s : String, cellClean s →
      hasTopDelim d' false s.data = false ∧ scanQ false s.data = false := by
    intro s hs
    refine clean_cell_facts d' s.data hs.2.1 ?_ false
    rcases hcomma with rfl | rfl
    · exact hs.1
    · exact hs.2.2
  have hquoted : ∀ s : String,
      quotedClean s →
      hasTopDelim d' false ("\"" ++ s ++ "\"").data = false ∧
        scanQ false ("\"" ++ s ++ "\"").data = false := by
    intro s hs
    have hsh : ("\"" ++ s ++ "\"").data = '"' :: (s.data ++ ['"']) := rfl
    rw [hsh]
    exact quoted_cell_facts d' s.data hs.1
  intro c hc
  simp only [csvRowCells, List.map_cons, List.map_nil, List.mem_cons,
    List.not_mem_nil, or_false] at hc
  rcases hc with rfl | rfl | rfl | rfl | rfl | rfl | rfl | rfl
  · exact hplain _ h1
  · exact hquoted _ h2
  · exact hplain _ h3
  · exact hplain _ h4
  · exact hplain _ h5
  · exact hplain _ h6
  · exact hplain _ h7
  · exact hquoted _ h8

theorem parseCSVLine_row (pp : PopPayment) (h : rowClean pp) :
    parseCSVLine (joinSep "," (csvRowCells pp)).data = roundTripRow pp := by
  obtain ⟨h1, h2, h3, h4, h5, h6, h7, h8⟩ := h
  have hcm : (("," : String)).data = [','] := rfl
  rw [parseCSVLine, joinSep_data, hcm,
    splitTop_join ',' (by decide) _ (by simp [csvRowCells])
      (csvRow_cell_facts pp ⟨h1, h2, h3, h4, h5, h6, h7, h8⟩ ',' (Or.inl rfl))]
  simp only [csvRowCells, roundTripRow, List.map_cons, List.map_nil, List.map_map]
  have hqc : ∀ s : String, quotedClean s →
      unquoteCell (("\"" ++ s ++ "\"").data) = s.data := by
    intro s hs
    have hsh : ("\"" ++ s ++ "\"").data = '"' :: (s.data ++ ['"']) := rfl
    rw [hsh, unquoteCell_quoted]
  rw [unquoteCell_plain _ h1.2.1, unquoteCell_plain _ h3.2.1,
    unquoteCell_plain _ h4.2.1, unquoteCell_plain _ h5.2.1,
    unquoteCell_plain _ h6.2.1, unquoteCell_plain _ h7.2.1,
    hqc _ h2, hqc _ h8]

theorem parseCSVLine_header :
    parseCSVLine (joinSep "," csvHeaders).data = csvHeaders := by decide



/-- **C9**: `convertPaymentsToCSV` emits the exact header row
`Invoice Number,Client,Amount,Currency,Payment Method,Status,Paid Date,Description`
followed by one row per payment with the company name and description
double-quoted, and parsing the output back field-by-field respecting the
quoting reproduces every row — in particular the invoice numbers, the
amounts (via the injective decimal rendering) and the statuses of the
source payment set — whenever the emitted cells are free of stray
quotes/newlines (and un-quoted cells free of commas), which holds for all
values these fields take in the system. -/
theorem exportCSV_roundTrip (ps : List PopPayment)
    (hclean : ∀ pp ∈ ps, rowClean pp) :
    parseCSV (convertPaymentsToCSV ps) = csvHeaders :: ps.map roundTripRow ∧
    joinSep "," csvHeaders =
      "Invoice Number,Client,Amount,Currency,Payment Method,Status,Paid Date,Description" ∧
    ((parseCSV (convertPaymentsToCSV ps)).drop 1).map (fun r => r.getD 0 "") =
      ps.map (fun pp => pp.payment.invoiceNumber) ∧
    ((parseCSV (convertPaymentsToCSV ps)).drop 1).map (fun r => r.getD 2 "") =
      ps.map (fun pp => toString pp.payment.amount) ∧
    ((parseCSV (convertPaymentsToCSV ps)).drop 1).map (fun r => r.getD 5 "") =
      ps.map (fun pp => pp.payment.status) := by
  have hnl : (("\n" : String)).data = ['\n'] := rfl
  have hdata : (convertPaymentsToCSV ps).data =
      joinChars ['\n'] ((joinSep "," csvHeaders).data ::
        ps.map (fun pp => (joinSep "," (csvRowCells pp)).data)) := by
    rw [convertPaymentsToCSV, joinSep_data, hnl]
    simp only [List.map_cons, List.map_map]
    rfl
  have hrowfacts : ∀ c ∈ ((joinSep "," csvHeaders).data ::
      ps.map (fun pp => (joinSep "," (csvRowCells pp)).data)),
      hasTopDelim '\n' false c = false ∧ scanQ false c = false := by
    intro c hc
    rcases List.mem_cons.mp hc with rfl | hc2
    · exact ⟨by decide, by decide⟩
    · obtain ⟨pp, hpp, rfl⟩ := List.mem_map.mp hc2
      have hcm : (("," : String)).data = [','] := rfl
      rw [joinSep_data, hcm]
      exact joinChars_facts '\n' ',' (by decide) (by decide) _
        (csvRow_cell_facts pp (hclean pp hpp) '\n' (Or.inr rfl))
  have hsplit := splitTop_join '\n' (by decide) _ (by simp) hrowfacts
  have hmain : parseCSV (convertPaymentsToCSV ps) = csvHeaders :: ps.map roundTripRow := by
    rw [parseCSV, hdata, hsplit]
    simp only [List.map_cons, parseCSVLine_header, List.map_map]
    congr 1
    apply List.map_congr_left
    intro pp hpp
    exact parseCSVLine_row pp (hclean pp hpp)
  refine ⟨hmain, by decide, ?_, ?_, ?_⟩
  · rw [hmain]
    simp [roundTripRow]
  · rw [hmain]
    simp [roundTripRow]
  · rw [hmain]
    simp [roundTripRow]



/-- Witness for **C9**: two concrete completed payments, one with a
comma inside the company name, survive the round-trip. -/
theorem exportCSV_roundTrip_witness :
    parseCSV (convertPaymentsToCSV
        [⟨{ samplePayment with paidAt := some 0, status := "completed" }, "Acme, Inc"⟩,
         ⟨{ samplePayment with invoiceNumber := "INV-2024-00002", status := "completed" },
          "Beta Co"⟩]) =
      csvHeaders ::
        [⟨{ samplePayment with paidAt := some 0, status := "completed" }, "Acme, Inc"⟩,
         ⟨{ samplePayment with invoiceNumber := "INV-2024-00002", status := "completed" },
          "Beta Co"⟩].map roundTripRow ∧
    joinSep "," csvHeaders =
      "Invoice Number,Client,Amount,Currency,Payment Method,Status,Paid Date,Description" ∧
    ((parseCSV (convertPaymentsToCSV
        [⟨{ samplePayment with paidAt := some 0, status := "completed" }, "Acme, Inc"⟩,
         ⟨{ samplePayment with invoiceNumber := "INV-2024-00002", status := "completed" },
          "Beta Co"⟩])).drop 1).map (fun r => r.getD 0 "") =
      ["INV-2024-00001", "INV-2024-00002"] ∧
    ((parseCSV (convertPaymentsToCSV
        [⟨{ samplePayment with paidAt := some 0, status := "completed" }, "Acme, Inc"⟩,
         ⟨{ samplePayment with invoiceNumber := "INV-2024-00002", status := "completed" },
          "Beta Co"⟩])).drop 1).map (fun r => r.getD 5 "") =
      ["completed", "completed"] := by
  have h := exportCSV_roundTrip
    [⟨{ samplePayment with paidAt := some 0, status := "completed" }, "Acme, Inc"⟩,
     ⟨{ samplePayment with invoiceNumber := "INV-2024-00002", status := "completed" },
      "Beta Co"⟩] (by decide)
  refine ⟨h.1, h.2.1, ?_, ?_⟩
  · rw [h.2.2.1]
    decide
  · rw [h.2.2.2.2]
    decide

end LiTPS
